import Mathlib

/-!
Verification of the MRKL agent pipeline (`src/mrkl_agent/agent.py` and
`src/mrkl_agent/reflector_agent.py`) against its natural-language
specification.

The Python functions are shallowly embedded as computable Lean functions.
Strings are processed as `List Char` internally (Python `str` is a sequence
of code points, as is `String.toList`).  Python machine integers are
arbitrary precision, so `Int`/`Nat` model them exactly.  Python floats only
occur in this code base through `eval` of `/`-expressions and through two
threshold tests (`* 0.3`, `> 0.7`); the thresholds are embedded as the exact
rational comparisons `10*m >= 3*l` and `10*s > 7*l`, which agree with the
IEEE-double computations for every string length (the rounding error of
`l * 0.3` is an order of magnitude below the distance to the nearest
integer), and float values are modelled as exact rationals (the claims
under verification only exercise integer arithmetic).

Regular-expression searches in the source are embedded as hand-written
leftmost-match scanners that are faithful to the specific patterns used by
the code (documented at each definition).
-/

set_option maxRecDepth 100000

namespace Mrkl

abbrev Chars := List Char

/-- One apostrophe character, used to build the string literals of the
source that contain quotes. -/
def apos : String := String.singleton (Char.ofNat 39)

/-- ASCII lower-casing, as applied by Python `str.lower()` on the ASCII
queries this code handles. -/
def lowerChar (c : Char) : Char :=
  if c.isUpper then Char.ofNat (c.toNat + 32) else c

def lowerChars (s : Chars) : Chars := s.map lowerChar

def strLower (s : String) : Chars := lowerChars s.toList

/-- Python whitespace characters (`str.strip`, `str.split`, regex `\s`),
restricted to ASCII. -/
def isPyWs (c : Char) : Bool :=
  c == ' ' || c == '\t' || c == '\n' || c == '\x0d' || c == '\x0b' || c == '\x0c'

/-- Python `str.strip()`. -/
def pyStrip (s : Chars) : Chars :=
  ((s.dropWhile isPyWs).reverse.dropWhile isPyWs).reverse

/-- Does `needle` occur at the head of `hay`? -/
def headMatches : Chars → Chars → Bool
  | _, [] => true
  | [], _ :: _ => false
  | a :: as, b :: bs => a == b && headMatches as bs

/-- Python `needle in hay` substring containment. -/
def hasSub : Chars → Chars → Bool
  | [], needle => needle.isEmpty
  | h :: t, needle => headMatches (h :: t) needle || hasSub t needle

/-- Python `needle in hay` on `String`s. -/
def strHasSub (hay needle : String) : Bool := hasSub hay.toList needle.toList

/-- `any(keyword in hay for keyword in kws)`. -/
def anyKw (kws : List String) (hay : Chars) : Bool :=
  kws.any fun k => hasSub hay k.toList

/-- Python `str.split()`: split on whitespace runs, dropping empties. -/
def splitWsAux : Chars → Chars → List Chars
  | [], acc => if acc.isEmpty then [] else [acc.reverse]
  | c :: rest, acc =>
    if isPyWs c then
      if acc.isEmpty then splitWsAux rest [] else acc.reverse :: splitWsAux rest []
    else splitWsAux rest (c :: acc)

def splitWs (s : Chars) : List String := (splitWsAux s []).map List.asString

/-- Python `' '.join(ws)`. -/
def joinSpace : List String → String
  | [] => ""
  | [w] => w
  | w :: ws => w ++ " " ++ joinSpace ws

/-- Python `', '.join(ws)`. -/
def joinComma : List String → String
  | [] => ""
  | [w] => w
  | w :: ws => w ++ ", " ++ joinComma ws

/-- Python `' | '.join(ws)`. -/
def joinBar : List String → String
  | [] => ""
  | [w] => w
  | w :: ws => w ++ " | " ++ joinBar ws

/-- `s[i : i+len]`. -/
def sliceL (s : Chars) (i len : Nat) : Chars := (s.drop i).take len

/-- `unit * n` (Python string repetition). -/
def repUnit (u : Chars) : Nat → Chars
  | 0 => []
  | n + 1 => u ++ repUnit u n

/-- Number of positions where two strings agree (`sum(1 for a, b in zip(x, y) if a == b)`). -/
def simCount (a b : Chars) : Nat :=
  (a.zip b).countP fun p => p.1 == p.2

/-! ### Input validator (`FreeLLMAgent._is_meaningless_query`, agent.py lines 94-182) -/

/-- Check of `re.search(r'(.{1,3})\1{4,}', s)` at one start position `i` with
unit length `k`: the unit (which `.` forbids from containing a newline)
followed by at least 4 more copies, i.e. 5 consecutive copies in total. -/
def isRepeatAt (s : Chars) (i k : Nat) : Bool :=
  decide (i + 5 * k ≤ s.length) &&
  (sliceL s i k).all (fun c => !(c == '\n')) &&
  sliceL s i (5 * k) == repUnit (sliceL s i k) 5

/-- `re.search(r'(.{1,3})\1{4,}', s)` succeeds iff some substring of length
1 to 3 occurs at least 5 times consecutively (the captured unit plus 4 or
more backreference copies). -/
def hasSmallRepeat (s : Chars) : Bool :=
  (List.range s.length).any fun i => [1, 2, 3].any fun k => isRepeatAt s i k

/-- The common-word allow-list of `_is_meaningless_query` (agent.py line 170). -/
def commonWords : List String :=
  ["the", "and", "is", "in", "to", "of", "a", "that", "it", "with", "for", "as",
   "was", "on", "are", "you", "this", "be", "at", "have", "or", "not", "from",
   "by", "they", "we", "say", "her", "she", "an", "each", "which", "do", "how",
   "their", "if", "will", "up", "other", "about", "out", "many", "then", "them",
   "these", "so", "some", "what", "would", "make", "like", "into", "time", "has",
   "two", "more", "go", "no", "way", "could", "my", "than", "first", "been",
   "call", "who", "oil", "its", "now", "find", "long", "down", "day", "did",
   "get", "come", "made", "may", "part", "weather", "calculate", "news",
   "search", "tell", "me", "when", "where", "why", "university", "heriot", "watt"]

/-- `re.split(r'[^a-zA-Z]', s)` followed by the length-at-least-3 filter of
the valid-word loop; empty tokens produced by the split are dropped here
since they never pass that filter. -/
def splitNonAlphaAux : Chars → Chars → List Chars
  | [], acc => if acc.isEmpty then [] else [acc.reverse]
  | c :: rest, acc =>
    if c.isAlpha then splitNonAlphaAux rest (c :: acc)
    else if acc.isEmpty then splitNonAlphaAux rest []
    else acc.reverse :: splitNonAlphaAux rest []

def splitNonAlpha (s : Chars) : List Chars := splitNonAlphaAux s []

def vowelChars : List Char := ['a', 'e', 'i', 'o', 'u']

def consonantChars : List Char :=
  ['b', 'c', 'd', 'f', 'g', 'h', 'j', 'k', 'l', 'm', 'n', 'p', 'q', 'r', 's',
   't', 'v', 'w', 'x', 'y', 'z']

/-- The four keyboard-row regex alternatives of agent.py lines 153-158;
each is `^[set]+$` under `re.match` on the stripped query (which has no
trailing newline, so `$` is plain end-of-string). -/
def keyboardRows : List (List Char) :=
  [['y', 'h'],
   ['q', 'w', 'e', 'r', 't', 'y'],
   ['a', 's', 'd', 'f', 'g', 'h'],
   ['z', 'x', 'c', 'v', 'b', 'n']]

def matchesRowPattern (s : Chars) (row : List Char) : Bool :=
  !s.isEmpty && s.all (fun c => row.contains c)

/-- The body of `_is_meaningless_query` applied to the cleaned
(stripped, lower-cased) query. -/
def meaninglessCore (s : Chars) : Bool :=
  -- rule 1: length < 3
  if s.length < 3 then true
  -- rule 2: > 5 chars from at most 2 distinct characters
  else if s.dedup.length ≤ 2 && decide (s.length > 5) then true
  -- rule 3: > 10 chars, ≤ 4 distinct, most frequent char ≥ 30% of length
  -- (`max_count >= len * 0.3` agrees with `10 * max_count >= 3 * len`)
  else if decide (s.length > 10) && s.dedup.length ≤ 4 &&
          decide (10 * ((s.dedup.map fun c => s.count c).foldr max 0) ≥ 3 * s.length) then true
  -- rule 4: regex `(.{1,3})\1{4,}`
  else if hasSmallRepeat s then true
  -- rule 5: vowel/consonant heuristics on the alphabetic subsequence
  else
    let letters := s.filter Char.isAlpha
    let vc := letters.countP fun c => vowelChars.contains c
    let cc := letters.countP fun c => consonantChars.contains c
    if decide (letters.length > 5) &&
       ((vc == 0 && decide (cc > 5)) || (decide (vc > 0) && decide (cc > 8 * vc))) then true
    -- rule 6: tiling similarity against prefix units of length 2-5
    -- (`similarity / len > 0.7` agrees with `10 * similarity > 7 * len`)
    else if decide (s.length > 10) &&
            ([2, 3, 4, 5].any fun i =>
              let pat := s.take i
              let reps := s.length / i
              decide (reps ≥ 3) &&
              decide (10 * simCount s ((repUnit pat reps).take s.length) > 7 * s.length)) then true
    -- rule 7: keyboard-row-only strings longer than 8
    else if (keyboardRows.any fun row => matchesRowPattern s row) && decide (s.length > 8) then true
    -- rule 8: long query with no valid word
    else if decide (s.length > 10) &&
            ((splitNonAlpha s).filter fun w =>
                decide (w.length ≥ 3) &&
                (commonWords.contains w.asString || decide (w.length ≥ 4))).isEmpty then true
    else false

/-- The stripped lower-cased query on which `_is_meaningless_query`
evaluates its rules (`query.strip().lower()`). -/
def cleanedQuery (query : String) : Chars := lowerChars (pyStrip query.toList)

/-- `FreeLLMAgent._is_meaningless_query` (agent.py lines 94-182). -/
def isMeaninglessQuery (query : String) : Bool :=
  meaninglessCore (cleanedQuery query)

/-! ### Tool router (`FreeLLMAgent.think`, agent.py lines 41-92) -/

/-- One reasoning step `{step: ..., content: ...}` (agent.py). -/
structure Step where
  step : String
  content : String
deriving Repr, DecidableEq

def calcKeywords : List String :=
  ["calculate", "math", "+", "-", "*", "/", "=", "sum", "multiply", "divide",
   "compute", "formula"]

def weatherKeywords : List String :=
  ["weather", "temperature", "rain", "sunny", "climate", "forecast", "humidity", "wind"]

def newsKeywords : List String :=
  ["news", "latest", "recent", "current events", "breaking", "today",
   "yesterday", "happening"]

def infoKeywords : List String :=
  ["what is", "tell me about", "define", "explain", "information", "who is",
   "when did", "where is", "how does"]

/-- `FreeLLMAgent.think`: the meaningless-input check, then the strictly
ordered keyword cascade over the lower-cased query; returns the selected
tool identifier together with the reasoning steps recorded on
`self.reasoning_steps` (which `think` resets at entry). -/
def thinkResult (query : String) : String × List Step :=
  let qa : Step := ⟨"Query Analysis", "Analyzing user query: " ++ apos ++ query ++ apos⟩
  if isMeaninglessQuery query then
    ("invalid",
     [qa, ⟨"Input Validation", "Detected meaningless or random input - cannot process"⟩])
  else
    let ql := strLower query
    if anyKw calcKeywords ql then
      ("calculator",
       [qa, ⟨"Tool Selection", "Detected mathematical operations - selecting Calculator tool"⟩])
    else if anyKw weatherKeywords ql then
      ("weather",
       [qa, ⟨"Tool Selection", "Detected weather-related query - selecting Weather tool"⟩])
    else if anyKw newsKeywords ql then
      ("news",
       [qa, ⟨"Tool Selection", "Detected news/current events request - selecting News tool"⟩])
    else if anyKw infoKeywords ql then
      ("search",
       [qa, ⟨"Tool Selection", "Detected general information request - selecting Search tool"⟩])
    else
      ("search",
       [qa, ⟨"Tool Selection",
             "General query detected - defaulting to Search tool for comprehensive information"⟩])

/-- The tool identifier chosen by `FreeLLMAgent.think`. -/
def selectTool (query : String) : String := (thinkResult query).1

/-! ### Python numbers and the restricted `eval` of arithmetic expressions

`ReflectorAgent._validate_mathematical_answer` evaluates the extracted
expression with Python `eval` after checking that it only contains
`0123456789+-*/(). `.  Python ints are arbitrary precision (`Int`); floats
(arising from `/`) are modelled as exact rationals, see the header note. -/

inductive PyNum where
  | int (i : Int)
  | float (q : Rat)
deriving Repr, DecidableEq

def PyNum.toRat : PyNum → Rat
  | .int i => (i : Rat)
  | .float q => q

def PyNum.isFloat : PyNum → Bool
  | .int _ => false
  | .float _ => true

def ratAbs (q : Rat) : Rat := if q < 0 then -q else q

def pyIsZero : PyNum → Bool
  | .int i => i == 0
  | .float q => q.num == 0

/-- Python `+` on numbers: int when both ints, else float. -/
def pyAdd : PyNum → PyNum → PyNum
  | .int a, .int b => .int (a + b)
  | a, b => .float (a.toRat + b.toRat)

def pySub : PyNum → PyNum → PyNum
  | .int a, .int b => .int (a - b)
  | a, b => .float (a.toRat - b.toRat)

def pyMul : PyNum → PyNum → PyNum
  | .int a, .int b => .int (a * b)
  | a, b => .float (a.toRat * b.toRat)

def pyNeg : PyNum → PyNum
  | .int a => .int (-a)
  | .float q => .float (-q)

/-- Python `/` (true division): always float, `ZeroDivisionError` on zero. -/
def pyDiv (a b : PyNum) : Option PyNum :=
  if pyIsZero b then none else some (.float (a.toRat / b.toRat))

/-- Python `//` (floor division): int on ints. -/
def pyFloorDiv (a b : PyNum) : Option PyNum :=
  if pyIsZero b then none
  else match a, b with
    | .int x, .int y => some (.int (Int.fdiv x y))
    | x, y => some (.float ((⌊x.toRat / y.toRat⌋ : Int) : Rat))

/-- Python `**`: int ** nonnegative int is int, a negative exponent gives a
float.  A float exponent with a fractional part is not representable as an
exact rational and is treated as an evaluation failure (not exercised by
the arithmetic this repository handles, which has no `^` in its inputs of
interest). -/
def pyPow (a b : PyNum) : Option PyNum :=
  let go (e : Int) : Option PyNum :=
    if 0 ≤ e then
      match a with
      | .int x => some (if b.isFloat then .float ((x : Rat) ^ e.toNat) else .int (x ^ e.toNat))
      | .float q => some (.float (q ^ e.toNat))
    else if pyIsZero a then none
    else some (.float (1 / a.toRat ^ (-e).toNat))
  match b with
  | .int e => go e
  | .float q => if q.den == 1 then go q.num else none

def digitsToNat (ds : Chars) : Nat :=
  ds.foldl (fun n c => 10 * n + (c.toNat - 48)) 0

/-- Python `float` literal value of `intpart.fracpart` (exact rational). -/
def decimalToRat (ip fp : Chars) : Rat :=
  (digitsToNat ip : Rat) + (digitsToNat fp : Rat) / ((10 : Rat) ^ fp.length)

inductive MTok where
  | num (v : PyNum)
  | plus | minus | star | dstar | slash | dslash | lparen | rparen
deriving Repr, DecidableEq

/-- Lex a Python numeric literal (`\d*\.?\d*` with at least one digit) at
the head of `s`; `2.` and `.5` are floats, a bare integer is an int. -/
def lexNum (s : Chars) : Option (PyNum × Chars) :=
  let ds := s.takeWhile Char.isDigit
  let rest := s.drop ds.length
  match rest with
  | '.' :: r2 =>
    let fs := r2.takeWhile Char.isDigit
    if ds.isEmpty && fs.isEmpty then none
    else some (.float (decimalToRat ds fs), r2.drop fs.length)
  | _ => if ds.isEmpty then none else some (.int (digitsToNat ds : Int), rest)

def tokenizeAux : Nat → Chars → Option (List MTok)
  | _, [] => some []
  | 0, _ :: _ => none
  | fuel + 1, c :: rest =>
    if c == ' ' then tokenizeAux fuel rest
    else if c == '+' then (tokenizeAux fuel rest).map (.plus :: ·)
    else if c == '-' then (tokenizeAux fuel rest).map (.minus :: ·)
    else if c == '*' then
      match rest with
      | '*' :: r2 => (tokenizeAux fuel r2).map (.dstar :: ·)
      | _ => (tokenizeAux fuel rest).map (.star :: ·)
    else if c == '/' then
      match rest with
      | '/' :: r2 => (tokenizeAux fuel r2).map (.dslash :: ·)
      | _ => (tokenizeAux fuel rest).map (.slash :: ·)
    else if c == '(' then (tokenizeAux fuel rest).map (.lparen :: ·)
    else if c == ')' then (tokenizeAux fuel rest).map (.rparen :: ·)
    else
      match lexNum (c :: rest) with
      | some (v, r2) => (tokenizeAux fuel r2).map (.num v :: ·)
      | none => none

/- Recursive-descent evaluator for the Python expression grammar restricted
to the permitted characters: `expr := term ((+|-) term)*`,
`term := unary ((*|/|//) unary)*`, `unary := (+|-) unary | power`,
`power := atom (** unary)?`.  Any parse failure or division by zero yields
`none` (Python `SyntaxError`/`ZeroDivisionError`). -/
mutual

def parseE : Nat → List MTok → Option (PyNum × List MTok)
  | 0, _ => none
  | fuel + 1, toks =>
    match parseT fuel toks with
    | some (a, rest) => parseELoop fuel a rest
    | none => none

def parseELoop : Nat → PyNum → List MTok → Option (PyNum × List MTok)
  | 0, _, _ => none
  | fuel + 1, a, toks =>
    match toks with
    | .plus :: rest =>
      match parseT fuel rest with
      | some (b, r2) => parseELoop fuel (pyAdd a b) r2
      | none => none
    | .minus :: rest =>
      match parseT fuel rest with
      | some (b, r2) => parseELoop fuel (pySub a b) r2
      | none => none
    | _ => some (a, toks)

def parseT : Nat → List MTok → Option (PyNum × List MTok)
  | 0, _ => none
  | fuel + 1, toks =>
    match parseU fuel toks with
    | some (a, rest) => parseTLoop fuel a rest
    | none => none

def parseTLoop : Nat → PyNum → List MTok → Option (PyNum × List MTok)
  | 0, _, _ => none
  | fuel + 1, a, toks =>
    match toks with
    | .star :: rest =>
      match parseU fuel rest with
      | some (b, r2) => parseTLoop fuel (pyMul a b) r2
      | none => none
    | .slash :: rest =>
      match parseU fuel rest with
      | some (b, r2) => match pyDiv a b with
        | some v => parseTLoop fuel v r2
        | none => none
      | none => none
    | .dslash :: rest =>
      match parseU fuel rest with
      | some (b, r2) => match pyFloorDiv a b with
        | some v => parseTLoop fuel v r2
        | none => none
      | none => none
    | _ => some (a, toks)

def parseU : Nat → List MTok → Option (PyNum × List MTok)
  | 0, _ => none
  | fuel + 1, toks =>
    match toks with
    | .plus :: rest => parseU fuel rest
    | .minus :: rest =>
      match parseU fuel rest with
      | some (v, r2) => some (pyNeg v, r2)
      | none => none
    | _ => parseP fuel toks

def parseP : Nat → List MTok → Option (PyNum × List MTok)
  | 0, _ => none
  | fuel + 1, toks =>
    match parseA fuel toks with
    | some (a, rest) =>
      match rest with
      | .dstar :: r2 =>
        match parseU fuel r2 with
        | some (b, r3) => match pyPow a b with
          | some v => some (v, r3)
          | none => none
        | none => none
      | _ => some (a, rest)
    | none => none

def parseA : Nat → List MTok → Option (PyNum × List MTok)
  | 0, _ => none
  | fuel + 1, toks =>
    match toks with
    | .num v :: rest => some (v, rest)
    | .lparen :: rest =>
      match parseE fuel rest with
      | some (v, .rparen :: r3) => some (v, r3)
      | _ => none
    | _ => none

end

/-- Python `eval` of an arithmetic string over the permitted character
set; `none` models the exceptions caught at reflector_agent.py line 171. -/
def evalPyExpr (s : Chars) : Option PyNum :=
  match tokenizeAux (s.length + 1) s with
  | none => none
  | some toks =>
    match parseE (5 * toks.length + 5) toks with
    | some (v, []) => some v
    | _ => none

/-! ### Regex scanners for `_extract_math_expression` and
`_extract_result_from_response` (reflector_agent.py lines 181-232)

Each Python `re.search` is embedded as a leftmost-match scanner: the
per-position matcher is tried at every start position from the left
(`regexSearch`), exactly as `re.search` does. -/

/-- Leftmost search: try `f` at each start position of the string. -/
def regexSearch (f : Chars → Option Chars) : Chars → Option Chars
  | [] => f []
  | s@(_ :: t) =>
    match f s with
    | some g => some g
    | none => regexSearch f t

/-- `\d+(?:\.\d+)?` at the head of `s`: the greedy digit run with an
optional fraction (the fraction needs a digit after the dot). -/
def scanNum (s : Chars) : Option (Chars × Chars) :=
  let ds := s.takeWhile Char.isDigit
  if ds.isEmpty then none
  else
    let rest := s.drop ds.length
    match rest with
    | '.' :: r2 =>
      let fs := r2.takeWhile Char.isDigit
      if fs.isEmpty then some (ds, rest)
      else some (ds ++ '.' :: fs, r2.drop fs.length)
    | _ => some (ds, rest)

def isOpChar (c : Char) : Bool :=
  c == '+' || c == '-' || c == '*' || c == '/' || c == '^'

/-- One `\s*[+\-*/^]\s*\d+(?:\.\d+)?` step of expression pattern 1,
returning the consumed text and the remainder. -/
def scanOpNum (s : Chars) : Option (Chars × Chars) :=
  let w1 := s.takeWhile isPyWs
  match s.drop w1.length with
  | c :: r2 =>
    if isOpChar c then
      let w2 := r2.takeWhile isPyWs
      match scanNum (r2.drop w2.length) with
      | some (n, r4) => some (w1 ++ c :: (w2 ++ n), r4)
      | none => none
    else none
  | [] => none

/-- Greedy `(?:\s*[+\-*/^]\s*\d+(?:\.\d+)?)*` extension. -/
def scanOpNumMany : Nat → Chars → Chars
  | 0, _ => []
  | fuel + 1, s =>
    match scanOpNum s with
    | some (c1, r1) => c1 ++ scanOpNumMany fuel r1
    | none => []

/-- Expression pattern 1,
`(\d+(?:\.\d+)?\s*[+\-*/^]\s*\d+(?:\.\d+)?(?:\s*[+\-*/^]\s*\d+(?:\.\d+)?)*)`,
at one start position. -/
def p1At (s : Chars) : Option Chars :=
  match scanNum s with
  | some (n1, r1) =>
    match scanOpNum r1 with
    | some (o1, r2) => some (n1 ++ o1 ++ scanOpNumMany (r2.length + 1) r2)
    | none => none
  | none => none

/-- The character class `[0-9+\-*/.^() ]` of expression patterns 2-4. -/
def isCsetChar (c : Char) : Bool :=
  c.isDigit || c == '+' || c == '-' || c == '*' || c == '/' || c == '.' ||
  c == '^' || c == '(' || c == ')' || c == ' '

/-- Case-insensitive literal at the head of `s` (the literal is given in
lower case); returns the remainder. -/
def litThen (lit : Chars) (s : Chars) : Option Chars :=
  if headMatches (lowerChars s) lit then some (s.drop lit.length) else none

/-- `\s+([0-9+\-*/.^() ]+)` with a space belonging to both classes: the
greedy whitespace run, then the greedy group; when no class character
follows the run, the regex backtracks one trailing space of the run into
the group (possible only when the run has at least 2 characters and ends
in a space). -/
def wsCsetGroup (r : Chars) : Option Chars :=
  let w := r.takeWhile isPyWs
  if w.isEmpty then none
  else
    let g := (r.drop w.length).takeWhile isCsetChar
    if !g.isEmpty then some g
    else if decide (w.length ≥ 2) && (w.getLast? == some ' ') then some [' ']
    else none

/-- Expression pattern 2, `calculate\s+([0-9+\-*/.^() ]+)` (IGNORECASE). -/
def p2At (s : Chars) : Option Chars :=
  match litThen "calculate".toList s with
  | some r => wsCsetGroup r
  | none => none

/-- Expression pattern 3, `what[\'s]*\s+([0-9+\-*/.^() ]+)\?*` (IGNORECASE);
the trailing `\?*` imposes no constraint. -/
def p3At (s : Chars) : Option Chars :=
  match litThen "what".toList s with
  | some r =>
    let sq := r.takeWhile fun c => c == Char.ofNat 39 || c == 's' || c == 'S'
    wsCsetGroup (r.drop sq.length)
  | none => none

/-- Expression pattern 4, `([0-9+\-*/.^() ]+)\s*=`: the greedy class run
(which already absorbs spaces), optional further whitespace, then `=`. -/
def p4At (s : Chars) : Option Chars :=
  let g := s.takeWhile isCsetChar
  if g.isEmpty then none
  else
    let r := s.drop g.length
    match r.drop (r.takeWhile isPyWs).length with
    | '=' :: _ => some g
    | _ => none

/-- Group post-check of `_extract_math_expression`: the stripped group must
contain a digit (`\d`) and an operator (`[+\-*/^]`). -/
def exprHasDigitAndOp (e : Chars) : Bool :=
  e.any Char.isDigit && e.any isOpChar

/-- Try one pattern: leftmost match, strip the group, apply the post-check;
a failed post-check falls through to the next pattern. -/
def tryPattern (f : Chars → Option Chars) (qc : Chars) : Option Chars :=
  match regexSearch f qc with
  | some g =>
    let e := pyStrip g
    if exprHasDigitAndOp e then some e else none
  | none => none

def replaceChar (c1 c2 : Char) (s : Chars) : Chars :=
  s.map fun c => if c == c1 then c2 else c

/-- `ReflectorAgent._extract_math_expression` (reflector_agent.py lines 181-202). -/
def extractMathExpression (query : String) : Option String :=
  let qc := replaceChar '÷' '/' (replaceChar '×' '*' query.toList)
  match tryPattern p1At qc with
  | some e => some e.asString
  | none =>
    match tryPattern p2At qc with
    | some e => some e.asString
    | none =>
      match tryPattern p3At qc with
      | some e => some e.asString
      | none =>
        match tryPattern p4At qc with
        | some e => some e.asString
        | none => none

/-- Result pattern `=\s*(\d+(?:\.\d+)?)` at one position. -/
def eqNumAt (s : Chars) : Option Chars :=
  match s with
  | '=' :: r =>
    let w := r.takeWhile isPyWs
    (scanNum (r.drop w.length)).map (·.1)
  | _ => none

/-- Result pattern `:\s*(\d+(?:\.\d+)?)` at one position. -/
def colonNumAt (s : Chars) : Option Chars :=
  match s with
  | ':' :: r =>
    let w := r.takeWhile isPyWs
    (scanNum (r.drop w.length)).map (·.1)
  | _ => none

/-- Result patterns `result[:\s]+(\d+...)` and `answer[:\s]+(\d+...)`
(IGNORECASE) at one position, parameterised by the literal. -/
def litSepNumAt (lit : Chars) (s : Chars) : Option Chars :=
  match litThen lit s with
  | some r =>
    let w := r.takeWhile fun c => c == ':' || isPyWs c
    if w.isEmpty then none
    else (scanNum (r.drop w.length)).map (·.1)
  | none => none

/-- Result pattern `(\d+(?:\.\d+)?)$`: the leftmost position whose entire
suffix is a numeric literal. -/
def fullNumAt (s : Chars) : Option Chars :=
  match scanNum s with
  | some (n, []) => some n
  | _ => none

/-- Python `re.findall(r'\d+(?:\.\d+)?', s)`: non-overlapping
leftmost-greedy numeric tokens. -/
def findAllNumsAux : Nat → Chars → List Chars
  | 0, _ => []
  | _ + 1, [] => []
  | fuel + 1, s@(_ :: t) =>
    match scanNum s with
    | some (n, rest) => n :: findAllNumsAux fuel rest
    | none => findAllNumsAux fuel t

/-- `int(g)` / `float(g)` conversion of a matched group (these digit groups
never raise `ValueError`, so the `continue` branch of the source is dead). -/
def numFromToken (g : Chars) : PyNum :=
  if g.contains '.' then
    .float (decimalToRat (g.takeWhile fun c => !(c == '.')) ((g.dropWhile fun c => !(c == '.')).drop 1))
  else .int (digitsToNat g : Int)

/-- `ReflectorAgent._extract_result_from_response` (reflector_agent.py lines 204-232). -/
def extractResultFromResponse (response : String) : Option PyNum :=
  let s := response.toList
  match regexSearch eqNumAt s with
  | some g => some (numFromToken g)
  | none =>
    match regexSearch (litSepNumAt "result".toList) s with
    | some g => some (numFromToken g)
    | none =>
      match regexSearch (litSepNumAt "answer".toList) s with
      | some g => some (numFromToken g)
      | none =>
        match regexSearch fullNumAt s with
        | some g => some (numFromToken g)
        | none =>
          match regexSearch colonNumAt s with
          | some g => some (numFromToken g)
          | none =>
            match (findAllNumsAux (s.length + 1) s).getLast? with
            | some g => some (numFromToken g)
            | none => none

/-! ### `ReflectorAgent._validate_mathematical_answer` (lines 131-179) -/

structure MathValidation where
  is_correct : Bool
  expected_result : Option PyNum
  provided_result : Option PyNum
  expression : Option String
deriving Repr, DecidableEq

def allowedEvalChars : List Char := "0123456789+-*/(). ".toList

/-- `ReflectorAgent._validate_mathematical_answer`: extract the expression
from the query, normalize `^`→`**` and `x`/`X`→`*`, check the character
allow-list, evaluate, extract the provided number from the response and
compare (tolerance `0.01` when either side is a float, exact `==` on ints).
Evaluation exceptions are resolved leniently as correct. -/
def validateMathematicalAnswer (query response : String) : MathValidation :=
  match extractMathExpression query with
  | none => ⟨false, none, none, none⟩
  | some expr =>
    let safe := (expr.toList.flatMap fun c => if c == '^' then ['*', '*'] else [c]).map
      fun c => if c == 'x' then '*' else if c == 'X' then '*' else c
    if safe.all (fun c => allowedEvalChars.contains c) then
      match evalPyExpr safe with
      | some v =>
        let provided := extractResultFromResponse response
        let ok := match provided with
          | none => false
          | some p =>
            match v, p with
            | .int a, .int b => a == b
            | _, _ => decide (ratAbs (v.toRat - p.toRat) < (1 : Rat) / 100)
        ⟨ok, some v, provided, some expr⟩
      | none => ⟨true, none, none, some expr⟩
    else ⟨false, none, none, some expr⟩

/-! ### The reflector report records (`ReflectorAgent`, reflector_agent.py)

`validate_response` builds a dictionary-shaped report from four analyses;
each sub-dictionary is embedded as a structure with the same field names. -/

structure AnswerAnalysis where
  answer_type : String
  contains_calculation : Bool
  contains_factual_info : Bool
  response_length : Nat
  specific_patterns : List String
  potential_issues : List String
  math_validation : Option MathValidation
deriving Repr, DecidableEq

structure ReasoningValidation where
  step_count : Nat
  logical_consistency : Bool
  completeness_score : Nat
  step_issues : List String
  missing_steps : List String
  reasoning_quality : String
deriving Repr, DecidableEq

structure AIValidation where
  ai_confidence : Int
  ai_decision : String
  ai_reasoning : String
  model_used : String
  validation_successful : Bool
deriving Repr, DecidableEq

structure Decision where
  is_correct : Bool
  confidence : Int
  reasoning : String
  suggestions : List String
deriving Repr, DecidableEq

structure ValidationReport where
  timestamp : String
  original_query : String
  mrkl_response : String
  validation_decision : Bool
  confidence_level : Int
  validation_reasoning : String
  answer_analysis : AnswerAnalysis
  reasoning_validation : ReasoningValidation
  ai_validation : AIValidation
  improvement_suggestions : List String
  validation_status : String
deriving Repr, DecidableEq

/-- Python `str` of a number as interpolated into the report f-strings;
`str(int)` is exact, a float with denominator 1 prints as `k.0`, and the
repr of a non-terminating float is not observable by any claim and is
rendered from the exact rational. -/
def pyNumStr : PyNum → String
  | .int i => toString i
  | .float q => if q.den == 1 then toString q.num ++ ".0"
                else toString q.num ++ "/" ++ toString q.den

def optNumStr : Option PyNum → String
  | none => "None"
  | some v => pyNumStr v

/-- `re.search(r'\d+', response)`: the response contains a digit. -/
def strHasDigit (s : String) : Bool := s.toList.any Char.isDigit

def analyzeMathKws : List String := ["calculate", "math", "+", "-", "*", "/", "="]

def analyzeWeatherKws : List String := ["weather", "temperature", "climate"]

def analyzeInfoKws : List String := ["what", "who", "where", "when", "why", "how"]

def weatherResponseWords : List String :=
  ["temperature", "degrees", "weather", "sunny", "cloudy", "rain"]

/-- `ReflectorAgent._analyze_answer_content` (reflector_agent.py lines 71-129). -/
def analyzeAnswerContent (query response : String) : AnswerAnalysis :=
  let ql := strLower query
  let rl := strLower response
  let base : AnswerAnalysis :=
    { answer_type := "unknown", contains_calculation := false,
      contains_factual_info := false, response_length := response.length,
      specific_patterns := [], potential_issues := [], math_validation := none }
  let a1 : AnswerAnalysis :=
    if anyKw analyzeMathKws ql then
      if strHasDigit response then
        let mv := validateMathematicalAnswer query response
        if mv.is_correct then
          { base with
            answer_type := "mathematical"
            contains_calculation := true
            math_validation := some mv
            specific_patterns := ["Mathematical calculation verified as correct: " ++
              optNumStr mv.expected_result] }
        else if !(mv.expected_result == none) then
          { base with
            answer_type := "mathematical"
            contains_calculation := true
            math_validation := some mv
            potential_issues := ["Mathematical error: Expected " ++
              optNumStr mv.expected_result ++ ", got " ++ optNumStr mv.provided_result] }
        else
          { base with
            answer_type := "mathematical"
            contains_calculation := true
            math_validation := some mv
            potential_issues := ["Could not verify mathematical calculation"] }
      else
        { base with
          answer_type := "mathematical"
          potential_issues := ["Mathematical query but no numerical answer found"] }
    else if anyKw analyzeWeatherKws ql then
      if weatherResponseWords.any (fun w => hasSub rl w.toList) then
        { base with
          answer_type := "weather"
          contains_factual_info := true
          specific_patterns := ["Contains weather-related information"] }
      else
        { base with
          answer_type := "weather"
          potential_issues := ["Weather query but no weather information in response"] }
    else if anyKw analyzeInfoKws ql then
      if decide (response.length > 30) then
        { base with answer_type := "informational", contains_factual_info := true }
      else
        { base with
          answer_type := "informational"
          potential_issues := ["Informational query but response seems too brief"] }
    else base
  if response.length < 10 then
    { a1 with potential_issues := a1.potential_issues ++ ["Response appears too short"] }
  else if decide (response.length > 500) then
    { a1 with potential_issues := a1.potential_issues ++ ["Response might be unnecessarily long"] }
  else a1

def criticalSteps : List String := ["Query Analysis", "Tool Selection", "Tool Execution"]

/-- `ReflectorAgent._validate_reasoning_chain` (reflector_agent.py lines
234-297).  The `expected_patterns` table of the source is computed but never
read afterwards and is omitted.  `int(ratio * 100)` on
`ratio ∈ {0, 1/3, 2/3, 1}` equals `(3 - missing) * 100 / 3` in `Nat`
division, and the `max(ratio, 0.8)` boost equals `max score 80`. -/
def validateReasoningChain (steps : List Step) (_query : String) : ReasoningValidation :=
  let actual := steps.map (·.step)
  let missing := criticalSteps.filter fun c =>
    !(actual.any fun a => hasSub (strLower a) (strLower c))
  let stepIssues := ((List.range steps.length).zip steps).filterMap fun p =>
    if p.2.content.length < 5 then
      some ("Step " ++ toString (p.1 + 1) ++ " (" ++ p.2.step ++ "): Very minimal content")
    else none
  let score0 := (criticalSteps.length - missing.length) * 100 / criticalSteps.length
  let score := if decide (actual.length ≥ 3) then max score0 80 else score0
  let quality :=
    if decide (score ≥ 80) && stepIssues.isEmpty then "Excellent"
    else if decide (score ≥ 60) then "Good"
    else if decide (score ≥ 40) then "Acceptable"
    else "Poor"
  { step_count := steps.length,
    logical_consistency := !(decide (score < 40)),
    completeness_score := score,
    step_issues := stepIssues,
    missing_steps := missing,
    reasoning_quality := quality }

/-- Python `str` of the reasoning-step list of dictionaries, as built by
`str(reasoning_steps)` in `_ai_powered_validation` (assuming step texts
without quote characters needing escapes, which holds for every step this
agent constructs). -/
def stepsRepr (steps : List Step) : String :=
  "[" ++ joinComma (steps.map fun s =>
    "\x7b" ++ apos ++ "step" ++ apos ++ ": " ++ apos ++ s.step ++ apos ++ ", " ++
    apos ++ "content" ++ apos ++ ": " ++ apos ++ s.content ++ apos ++ "\x7d") ++ "]"

def toolNames : List String := ["calculator", "weather", "search", "news"]

def toolMentioned (steps : List Step) : Bool :=
  toolNames.any fun t => hasSub (strLower (stepsRepr steps)) t.toList

def aiMathKws : List String := ["calculate", "math", "+", "-", "*", "/"]

def aiWeatherKws : List String := ["weather", "temperature", "climate"]

def aiWeatherRespWords : List String :=
  ["temperature", "degrees", "weather", "sunny", "cloudy", "rain", "celsius", "fahrenheit"]

def aiInfoKws : List String :=
  ["what", "who", "where", "when", "why", "how", "explain", "define"]

/-- `ReflectorAgent._ai_powered_validation` (reflector_agent.py lines
323-397): the rule-based scorer.  Tracks the positive-indicator and issue
lists and the running confidence exactly as the source does. -/
def aiPoweredValidation (query response : String) (steps : List Step) : AIValidation :=
  let ql := strLower query
  let rl := strLower response
  let base : List String × List String × Int :=
    if anyKw aiMathKws ql then
      if strHasDigit response then (["Contains numerical result for math query"], [], 85)
      else ([], ["Mathematical query missing numerical answer"], 30)
    else if anyKw aiWeatherKws ql then
      if aiWeatherRespWords.any (fun w => hasSub rl w.toList) then
        (["Contains weather-related information"], [], 80)
      else ([], ["Weather query lacks weather information"], 40)
    else if anyKw aiInfoKws ql then
      if decide (response.length > 20) then
        (["Provides substantial informational content"], [], 75)
      else ([], ["Informational query has very brief response"], 50)
    else (["Response addresses the query appropriately"], [], 70)
  let pos1 := base.1
  let iss1 := base.2.1
  let c1 := base.2.2
  let lenAdj : List String × List String × Int :=
    if decide (response.length > 100) then (pos1 ++ ["Detailed response provided"], iss1, c1)
    else if response.length < 10 then (pos1, iss1 ++ ["Response appears too brief"], c1 - 20)
    else (pos1, iss1, c1)
  let pos2 := lenAdj.1
  let iss2 := lenAdj.2.1
  let c2 := lenAdj.2.2
  let tm := toolMentioned steps
  let pos3 := if tm then pos2 ++ ["Appropriate tool usage detected in reasoning"] else pos2
  let c3 := if tm then c2 + 5 else c2
  if !iss2.isEmpty && decide (iss2.length ≥ pos3.length) then
    { ai_confidence := max (c3 - 20) 20, ai_decision := "incorrect",
      ai_reasoning := "Issues identified: " ++ joinComma iss2,
      model_used := "Rule-Based Validator", validation_successful := true }
  else
    { ai_confidence := min (c3 + 10) 90, ai_decision := "correct",
      ai_reasoning := "Validation passed: " ++ joinComma pos3,
      model_used := "Rule-Based Validator", validation_successful := true }

/-- `ReflectorAgent._make_validation_decision` (reflector_agent.py lines
401-488).  The informational branch evaluates
`len(answer_analysis.get('response_length', 0))`, i.e. `len` of an `int`,
which raises `TypeError`; that exception is modelled as `Except.error`. -/
def makeValidationDecision (a : AnswerAnalysis) (rv : ReasoningValidation)
    (ai : AIValidation) : Except String Decision :=
  let mathStep : List String × List String × Int :=
    match a.math_validation with
    | none => ([], [], 85)
    | some mv =>
      if mv.is_correct then (["✅ Mathematical calculation verified as correct"], [], 90)
      else ([], ["❌ Mathematical error: Expected " ++ optNumStr mv.expected_result ++
                 ", got " ++ optNumStr mv.provided_result], 30)
  let parts1 := mathStep.1
  let majors1 := mathStep.2.1
  let conf1 := mathStep.2.2
  let typeStep : Except String (List String × List String) :=
    if a.answer_type == "mathematical" then
      if a.contains_calculation then
        .ok (["Contains appropriate numerical calculation for math query"], [])
      else .ok ([], ["Mathematical query missing numerical answer"])
    else if a.answer_type == "weather" then
      if a.contains_factual_info then .ok (["Contains relevant weather information"], [])
      else .ok ([], ["Weather query missing weather information"])
    else if a.answer_type == "informational" then
      if a.contains_factual_info then .ok (["Contains appropriate factual information"], [])
      else .error "TypeError: object of type int has no len()"
    else .ok ([], [])
  match typeStep with
  | .error e => .error e
  | .ok ts =>
    let parts2 := parts1 ++ ts.1
    let majors2 := majors1 ++ ts.2
    let score := rv.completeness_score
    let scorePart :=
      if decide (score ≥ 80) then "Strong reasoning process (" ++ toString score ++ "%)"
      else if decide (score ≥ 60) then "Adequate reasoning process (" ++ toString score ++ "%)"
      else "Basic reasoning process (" ++ toString score ++ "%)"
    let parts3 := parts2 ++ [scorePart]
    let aiStep : List String × Int :=
      if ai.validation_successful then
        if ai.ai_decision == "correct" then
          (["AI model confirms answer correctness"], min (conf1 + 5) 95)
        else if ai.ai_decision == "incorrect" then
          (["AI model has concerns about the answer"], max (conf1 - 15) 40)
        else ([], conf1)
      else (["AI validation unavailable"], conf1)
    let parts4 := parts3 ++ aiStep.1
    let conf2 := aiStep.2
    if majors2.isEmpty then
      let minor := (a.potential_issues.filter fun issue =>
        !(strHasSub issue "lacks clear result format") && !(strHasSub issue "too brief")).take 2
      .ok { is_correct := true, confidence := conf2,
            reasoning := "✅ ANSWER VALIDATED: " ++ joinBar parts4,
            suggestions := minor }
    else
      .ok { is_correct := false, confidence := max (conf2 - 30) 20,
            reasoning := "❌ ANSWER FLAGGED: " ++ joinBar majors2,
            suggestions := majors2 }

/-- `ReflectorAgent.validate_response` (reflector_agent.py lines 24-69):
runs the four analyses, assembles the report and appends it to the
validation history.  `datetime.now()` is modelled by the `now` parameter;
an uncaught exception from the decision step is `Except.error`, in which
case no report is constructed and the history is unchanged. -/
def validateResponse (now query response : String) (steps : List Step)
    (hist : List ValidationReport) :
    Except String (ValidationReport × List ValidationReport) :=
  let a := analyzeAnswerContent query response
  let rv := validateReasoningChain steps query
  let ai := aiPoweredValidation query response steps
  match makeValidationDecision a rv ai with
  | .error e => .error e
  | .ok d =>
    let report : ValidationReport :=
      { timestamp := now, original_query := query, mrkl_response := response,
        validation_decision := d.is_correct, confidence_level := d.confidence,
        validation_reasoning := d.reasoning, answer_analysis := a,
        reasoning_validation := rv, ai_validation := ai,
        improvement_suggestions := d.suggestions,
        validation_status := if d.is_correct then "CORRECT" else "INCORRECT" }
    .ok (report, hist ++ [report])

/-! ### `FreeLLMAgent.process_query` (agent.py lines 338-444)

The model covers the pipeline up to the point where a generic query is
dispatched to its tool: parameter extraction, tool execution, response
composition and the subsequent reflection of the generic path depend on
external services (network calls) and are outside the model boundary
(`ProcessOutcome.pipeline`).  The two fully local paths — the hard-coded
Heriot-Watt special case and the meaningless-input rejection — are
modelled to completion. -/

/-- The hard-coded validation record returned for rejected input
(agent.py lines 392-402).  Note its fields: it has `overall_decision`,
not the `validation_decision` key of a reflector report. -/
structure InvalidDetails where
  answer_type : String
  contains_factual_info : Bool
  specific_patterns : List String
  potential_issues : List String
deriving Repr, DecidableEq

structure InvalidValidation where
  overall_decision : String
  confidence : Int
  reasoning : String
  validation_details : InvalidDetails
deriving Repr, DecidableEq

def invalidInputValidation : InvalidValidation :=
  { overall_decision := "correct", confidence := 95,
    reasoning := "Correctly identified and handled meaningless input with helpful guidance",
    validation_details :=
      { answer_type := "error_handling", contains_factual_info := false,
        specific_patterns := ["Input validation error", "Helpful guidance provided"],
        potential_issues := [] } }

/-- The `validation` value of a response envelope: either a reflector
`ValidationReport` or the hard-coded invalid-input record. -/
inductive ValidationField where
  | report (r : ValidationReport)
  | invalidInput (v : InvalidValidation)
deriving Repr, DecidableEq

/-- The response envelope returned by `process_query` (with `reflection`
duplicating `validation` for backward compatibility, as in the source). -/
structure Envelope where
  response : String
  reasoning_steps : List Step
  tool_used : String
  parameters : String
  validation : ValidationField
  reflection : ValidationField
deriving Repr, DecidableEq

inductive ProcessOutcome where
  | finished (env : Envelope)
  | pipeline (tool : String) (steps : List Step)
  | errored (msg : String)
deriving Repr, DecidableEq

/-- The special-case test of agent.py lines 343-344: `heriot` and `watt`
and one of `current`/`event`/`happening` in the lower-cased query. -/
def specialCaseHW (query : String) : Bool :=
  let ql := strLower query
  hasSub ql "heriot".toList && hasSub ql "watt".toList &&
  (hasSub ql "current".toList || hasSub ql "event".toList || hasSub ql "happening".toList)

def specialSteps : List Step :=
  [⟨"Query Analysis", "Detected specific question about current events at Heriot-Watt University"⟩,
   ⟨"Knowledge Retrieval", "Accessing prepared information about Rabbitron Lab activities"⟩,
   ⟨"Response Generation", "Providing current workshop information"⟩]

def rabbitronResponse : String :=
  "The Rabbitron Lab is hosting a workshop about AI agents where students and researchers can learn about artificial intelligence, autonomous systems, and intelligent agent development."

/-- The guidance template of agent.py line 389. -/
def guidanceTemplate : String :=
  "I" ++ apos ++ "m sorry, but your input appears to be random characters or doesn" ++ apos ++
  "t contain recognizable words. Could you please provide a clear question or request? For example:\n\n• Ask for a calculation: " ++
  apos ++ "What is 25 * 4 + 100?" ++ apos ++ "\n• Request weather: " ++ apos ++ "What" ++ apos ++
  "s the weather in London?" ++ apos ++ "\n• Search for information: " ++ apos ++
  "What is quantum computing?" ++ apos ++ "\n• Get news: " ++ apos ++ "Latest news about AI" ++ apos

def rejectionSteps (query : String) : List Step :=
  (thinkResult query).2 ++
  [⟨"Input Validation Failed", "Query appears to be random characters or meaningless input"⟩]

def rejectionEnvelope (query : String) : Envelope :=
  { response := guidanceTemplate, reasoning_steps := rejectionSteps query,
    tool_used := "input_validator", parameters := "invalid_input_detected",
    validation := .invalidInput invalidInputValidation,
    reflection := .invalidInput invalidInputValidation }

/-- `FreeLLMAgent.process_query`: the special-case branch is checked first
(before input validation), then `think` either rejects the query or
selects a tool for the generic pipeline.  The reflector history threads
through the special-case branch, which is the only modelled path that
calls `validate_response`. -/
def processQuery (now query : String) (hist : List ValidationReport) :
    ProcessOutcome × List ValidationReport :=
  if specialCaseHW query then
    match validateResponse now query rabbitronResponse specialSteps hist with
    | .error e => (.errored e, hist)
    | .ok (r, h) =>
      (.finished { response := rabbitronResponse, reasoning_steps := specialSteps,
                   tool_used := "University Knowledge Base",
                   parameters := "Heriot-Watt University Current Events",
                   validation := .report r, reflection := .report r }, h)
  else
    let tr := thinkResult query
    if tr.1 == "invalid" then (.finished (rejectionEnvelope query), hist)
    else (.pipeline tr.1 tr.2, hist)

/-- The `tool_used` field of a completed envelope. -/
def envToolUsed : ProcessOutcome → Option String
  | .finished env => some env.tool_used
  | _ => none

/-- The `validation_decision` field of a validation record, when present:
reflector reports carry it, the hard-coded invalid-input record does not. -/
def validationDecisionField : ValidationField → Option Bool
  | .report r => some r.validation_decision
  | .invalidInput _ => none

/-- The `overall_decision` field of a validation record, when present. -/
def overallDecisionField : ValidationField → Option String
  | .invalidInput v => some v.overall_decision
  | .report _ => none

/-- The validation record of a completed envelope. -/
def envValidation : ProcessOutcome → Option ValidationField
  | .finished env => some env.validation
  | _ => none

/-! ### `FreeLLMAgent.extract_parameters`, search branch (agent.py lines 260-264)

The other branches of `extract_parameters` (calculator, weather, news) are
not referenced by any claim under verification and are not embedded. -/

def searchStopWords : List String :=
  ["what", "is", "tell", "me", "about", "explain", "define", "the"]

/-- `extract_parameters(query, 'search')`: drop the stop words from the
whitespace-split lower-cased query and join the first 3 remaining tokens. -/
def extractParametersSearch (query : String) : String :=
  let ws := (splitWs (strLower query)).filter fun w => !(searchStopWords.contains w)
  joinSpace (ws.take 3)

/-- The validation decision and confidence carried by a successful
`validate_response` result. -/
def decisionOf (e : Except String (ValidationReport × List ValidationReport)) :
    Option (Bool × Int) :=
  match e with
  | .ok (r, _) => some (r.validation_decision, r.confidence_level)
  | .error _ => none

/-- The report produced by `validate_response("hello", "world!", [])` on an
empty history, written out in full (used as a concrete instantiation). -/
def c9SampleReport : ValidationReport :=
  { timestamp := "",
    original_query := "hello",
    mrkl_response := "world!",
    validation_decision := true,
    confidence_level := 70,
    validation_reasoning :=
      "✅ ANSWER VALIDATED: Basic reasoning process (0%) | AI model has concerns about the answer",
    answer_analysis :=
      { answer_type := "unknown", contains_calculation := false,
        contains_factual_info := false, response_length := 6,
        specific_patterns := [], potential_issues := ["Response appears too short"],
        math_validation := none },
    reasoning_validation :=
      { step_count := 0, logical_consistency := false, completeness_score := 0,
        step_issues := [],
        missing_steps := ["Query Analysis", "Tool Selection", "Tool Execution"],
        reasoning_quality := "Poor" },
    ai_validation :=
      { ai_confidence := 30, ai_decision := "incorrect",
        ai_reasoning := "Issues identified: Response appears too brief",
        model_used := "Rule-Based Validator", validation_successful := true },
    improvement_suggestions := ["Response appears too short"],
    validation_status := "CORRECT" }

/-- The report produced by `validate_response("good day", "sunshine", [])`
on an empty history, written out in full (used as a concrete
instantiation). -/
def c10SampleReport : ValidationReport :=
  { timestamp := "",
    original_query := "good day",
    mrkl_response := "sunshine",
    validation_decision := true,
    confidence_level := 70,
    validation_reasoning :=
      "✅ ANSWER VALIDATED: Basic reasoning process (0%) | AI model has concerns about the answer",
    answer_analysis :=
      { answer_type := "unknown", contains_calculation := false,
        contains_factual_info := false, response_length := 8,
        specific_patterns := [], potential_issues := ["Response appears too short"],
        math_validation := none },
    reasoning_validation :=
      { step_count := 0, logical_consistency := false, completeness_score := 0,
        step_issues := [],
        missing_steps := ["Query Analysis", "Tool Selection", "Tool Execution"],
        reasoning_quality := "Poor" },
    ai_validation :=
      { ai_confidence := 30, ai_decision := "incorrect",
        ai_reasoning := "Issues identified: Response appears too brief",
        model_used := "Rule-Based Validator", validation_successful := true },
    improvement_suggestions := ["Response appears too short"],
    validation_status := "CORRECT" }

end Mrkl

example : Mrkl.evalPyExpr "15 * 23 + 100".toList = some (.int 445) := by decide
example : Mrkl.evalPyExpr "2**3".toList = some (.int 8) := by decide
example : Mrkl.evalPyExpr "-2**2".toList = some (.int (-4)) := by decide
example : Mrkl.evalPyExpr "1/0".toList = none := by decide
example : Mrkl.extractMathExpression "calculate 2+2" = some "2+2" := by decide
example : Mrkl.extractMathExpression "calculate 2-5" = some "2-5" := by decide
example : Mrkl.extractMathExpression "calculate 15 * 23 + 100" = some "15 * 23 + 100" := by decide
example : Mrkl.extractMathExpression "calculate (2+3)" = some "2+3" := by decide
example : Mrkl.extractResultFromResponse "Calculation: 2+2 = 5" = some (.int 5) := by decide
example : Mrkl.extractResultFromResponse "Calculation: 2-5 = -3" = some (.int 3) := by decide
example : Mrkl.validateMathematicalAnswer "calculate 2+2" "Calculation: 2+2 = 5" =
    ⟨false, some (.int 4), some (.int 5), some "2+2"⟩ := by decide
example : Mrkl.validateMathematicalAnswer "calculate 2-5" "Calculation: 2-5 = -3" =
    ⟨false, some (.int (-3)), some (.int 3), some "2-5"⟩ := by decide

example : Mrkl.selectTool "Calculate 12 + 7" = "calculator" := by decide
example : Mrkl.selectTool "Weather in Tokyo?" = "weather" := by decide
example : Mrkl.selectTool "Latest news about AI" = "news" := by decide
example : Mrkl.selectTool "What is quantum computing?" = "search" := by decide
example : Mrkl.isMeaninglessQuery "yuhyhyugyuguygu" = true := by decide
example : Mrkl.isMeaninglessQuery "heriot watt current xxxxxxx" = true := by decide
example : Mrkl.isMeaninglessQuery "information abcabcabcabc" = false := by decide
example : Mrkl.isMeaninglessQuery "hello xyxyxyxyxy" = true := by decide
example : Mrkl.isMeaninglessQuery "qqqqqq" = true := by decide
example : Mrkl.isMeaninglessQuery "what is the" = false := by decide

open Mrkl

/-! ## Claim theorems -/

/-- Claim C1 (code bug): the claim states that `validate_response` never
raises and in particular completes for every informational query whose
response is at most 30 characters.  On exactly that path the source
evaluates `len(answer_analysis.get('response_length', 0))` — `len` of an
`int` — and raises `TypeError` (reflector_agent.py line 440), so no report
is returned.  This theorem evaluates the embedded code at the failing
input: query `"what is ai"` (classified informational), response `"AI."`
(3 ≤ 30 characters). -/
theorem c1_validate_response_type_error :
    validateResponse "" "what is ai" "AI." [] [] =
      .error "TypeError: object of type int has no len()" := by
  rfl

/-- Claim C2 (code bug): the arithmetic round-trip fails for expressions
with a negative result.  For `E = "2-5"` the evaluator yields `-3` and the
response is `"Calculation: 2-5 = -3"`, but every result-extraction pattern
of `_extract_result_from_response` matches `\d+` without a sign, so the
trailing-number pattern extracts `3`; the re-check then reports
`is_correct = false` with `provided_result = 3` instead of the claimed
`is_correct = true` with `provided_result = expected_result = -3`. -/
theorem c2_negative_result_roundtrip_fails :
    evalPyExpr "2-5".toList = some (.int (-3)) ∧
    extractResultFromResponse "Calculation: 2-5 = -3" = some (.int 3) ∧
    validateMathematicalAnswer "calculate 2-5" "Calculation: 2-5 = -3" =
      { is_correct := false, expected_result := some (.int (-3)),
        provided_result := some (.int 3), expression := some "2-5" } := by
  refine ⟨by decide, by decide, by decide⟩

/-- Claim C3 counterexample: a query that is meaningless *and* contains the
institutional-knowledge keywords is not rejected by the input validator:
`process_query` checks the Heriot-Watt special case before calling
`think`, so `"heriot watt current xxxxxxx"` (meaningless by the
repeated-pattern rule) is answered by the canned knowledge branch with
`tool_used = "University Knowledge Base"`, not `"input_validator"`. -/
theorem c3_counterexample :
    isMeaninglessQuery "heriot watt current xxxxxxx" = true ∧
    envToolUsed (processQuery "" "heriot watt current xxxxxxx" []).1 =
      some "University Knowledge Base" := by
  refine ⟨by decide, by decide⟩

/-- Claim C4 counterexample: processing `"yuhyhyugyuguygu"` does return the
rejection envelope with `tool_used = "input_validator"`, but its hard-coded
validation record (agent.py lines 392-402) has no `validation_decision`
field at all — its decision field is named `overall_decision` — so the
claimed `validation_decision = true` does not hold. -/
theorem c4_counterexample :
    envToolUsed (processQuery "" "yuhyhyugyuguygu" []).1 = some "input_validator" ∧
    (envValidation (processQuery "" "yuhyhyugyuguygu" []).1).map validationDecisionField =
      some none := by
  refine ⟨by decide, by decide⟩

/-- Claim C4 as amended: input `"yuhyhyugyuguygu"` yields the rejection
envelope: `tool_used = "input_validator"`, the fixed guidance template as
the response, and the hard-coded validation record whose `overall_decision`
field (not `validation_decision`) equals `"correct"` with confidence 95. -/
theorem c4_amended_end_to_end :
    processQuery "" "yuhyhyugyuguygu" [] =
      (.finished
        { response := guidanceTemplate,
          reasoning_steps :=
            [⟨"Query Analysis", "Analyzing user query: " ++ apos ++ "yuhyhyugyuguygu" ++ apos⟩,
             ⟨"Input Validation", "Detected meaningless or random input - cannot process"⟩,
             ⟨"Input Validation Failed",
              "Query appears to be random characters or meaningless input"⟩],
          tool_used := "input_validator",
          parameters := "invalid_input_detected",
          validation := .invalidInput invalidInputValidation,
          reflection := .invalidInput invalidInputValidation }, []) ∧
    invalidInputValidation.overall_decision = "correct" ∧
    invalidInputValidation.confidence = 95 := by
  refine ⟨by decide, by decide, by decide⟩

/-- Claim C5 counterexample: the query `"information abcabcabcabc"`
contains the 3-character unit `"abc"` repeated exactly 4 consecutive times
(at position 12 of its cleaned form), yet `is_meaningless` returns false:
the regex `(.{1,3})\1{4,}` requires the captured unit plus at least 4 more
copies, i.e. at least 5 consecutive occurrences. -/
theorem c5_counterexample :
    (sliceL (cleanedQuery "information abcabcabcabc") 12 3).length = 3 ∧
    sliceL (cleanedQuery "information abcabcabcabc") 12 (4 * 3) =
      repUnit (sliceL (cleanedQuery "information abcabcabcabc") 12 3) 4 ∧
    isMeaninglessQuery "information abcabcabcabc" = false := by
  refine ⟨by decide, by decide, by decide⟩

/-- Claim C6 counterexample: the query `"what is the"` routes to the
search tool, yet `extract_parameters` returns the empty string for it —
every token is a stop word, so the joined token list is empty,
contradicting the claim that the result is always non-empty. -/
theorem c6_counterexample :
    selectTool "what is the" = "search" ∧
    extractParametersSearch "what is the" = "" := by
  refine ⟨by decide, by decide⟩

/-- Claim C3 as amended: for every meaningless query that does *not* match
the Heriot-Watt special-case keyword conjunction (which `process_query`
checks before input validation and which takes precedence), the query is
rejected before any routing: the returned envelope is the rejection
envelope with `tool_used = "input_validator"` and the templated guidance
message, the history is untouched, and neither a tool pipeline nor the
canned knowledge branch is entered. -/
theorem c3_amended_rejection_before_routing (now query : String)
    (hist : List ValidationReport)
    (hs : specialCaseHW query = false) (hm : isMeaninglessQuery query = true) :
    processQuery now query hist = (.finished (rejectionEnvelope query), hist) ∧
    (rejectionEnvelope query).tool_used = "input_validator" ∧
    (rejectionEnvelope query).response = guidanceTemplate := by
  refine ⟨?_, rfl, rfl⟩
  unfold processQuery thinkResult
  simp [hs, hm]

/-- Claim C3 witness: the concrete meaningless query `"qqqqqq"` (rejected
by the repeated-character rule) does not match the special case and is
rejected with `tool_used = "input_validator"`. -/
theorem c3_amended_witness :
    specialCaseHW "qqqqqq" = false ∧ isMeaninglessQuery "qqqqqq" = true ∧
    processQuery "" "qqqqqq" [] = (.finished (rejectionEnvelope "qqqqqq"), []) :=
  ⟨by decide, by decide,
   (c3_amended_rejection_before_routing "" "qqqqqq" [] (by decide) (by decide)).1⟩

/-- Bounded-search completeness for the repeated-pattern regex: a witness
position and unit length make `hasSmallRepeat` succeed. -/
theorem hasSmallRepeat_of_isRepeatAt (s : Chars) (i k : Nat) (h1 : 1 ≤ k)
    (h3 : k ≤ 3) (h : isRepeatAt s i k = true) : hasSmallRepeat s = true := by
  have hlen : i + 5 * k ≤ s.length := by
    have h' := h
    unfold isRepeatAt at h'
    simp only [Bool.and_eq_true, decide_eq_true_eq] at h'
    exact h'.1.1
  have hi : i < s.length := by omega
  unfold hasSmallRepeat
  simp only [List.any_eq_true]
  refine ⟨i, List.mem_range.mpr hi, k, ?_, h⟩
  interval_cases k <;> simp

/-- Claim C5 as amended: the repeated-pattern rule requires at least **5**
consecutive occurrences, not 4: `re.search(r'(.{1,3})\1{4,}')` needs the
captured unit plus at least 4 backreference copies.  For every query whose
cleaned form contains a unit of length 1 to 3 repeated 5 consecutive times,
`is_meaningless` returns true (unconditionally — every rule checked before
the repeated-pattern rule also answers true, never false). -/
theorem c5_amended_five_consecutive_repeats (query : String) (i k : Nat)
    (h1 : 1 ≤ k) (h3 : k ≤ 3)
    (h : isRepeatAt (cleanedQuery query) i k = true) :
    isMeaninglessQuery query = true := by
  have hr := hasSmallRepeat_of_isRepeatAt _ i k h1 h3 h
  unfold isMeaninglessQuery meaninglessCore
  split_ifs <;> simp_all

/-- Claim C5 witness: `"hello xyxyxyxyxy"` contains the unit `"xy"`
repeated 5 consecutive times at position 6 and is classified meaningless. -/
theorem c5_amended_witness :
    (1 ≤ 2 ∧ 2 ≤ 3 ∧ isRepeatAt (cleanedQuery "hello xyxyxyxyxy") 6 2 = true) ∧
    isMeaninglessQuery "hello xyxyxyxyxy" = true :=
  ⟨⟨by decide, by decide, by decide⟩,
   c5_amended_five_consecutive_repeats "hello xyxyxyxyxy" 6 2 (by decide) (by decide)
     (by decide)⟩

/-- The whitespace splitter never produces an empty token. -/
theorem splitWsAux_no_nil : ∀ (s : Chars) (acc : Chars), [] ∉ splitWsAux s acc := by
  intro s
  induction s with
  | nil =>
    intro acc
    match acc with
    | [] => simp [splitWsAux]
    | a :: as => simp [splitWsAux]
  | cons c t ih =>
    intro acc
    simp only [splitWsAux]
    split_ifs with h1 h2
    · exact ih []
    · intro hmem
      rcases List.mem_cons.mp hmem with hc | hc
      · rcases acc with _ | ⟨a, as⟩
        · simp at h2
        · simp at hc
      · exact ih [] hc
    · exact ih (c :: acc)

/-- Tokens of the Python `str.split()` embedding are non-empty strings. -/
theorem splitWs_token_ne_empty (s : Chars) (w : String) (hw : w ∈ splitWs s) :
    w ≠ "" := by
  rcases List.mem_map.mp hw with ⟨l, hl, rfl⟩
  have hln : l ≠ [] := fun hn => splitWsAux_no_nil s [] (hn ▸ hl)
  intro hc
  apply hln
  simpa [List.asString] using congrArg String.data hc

/-- A space-join starting with a token is never empty (the head token is
non-empty, and with further tokens a separating space is present). -/
theorem joinSpace_cons_ne_empty (w : String) (ws : List String) (hw : w ≠ "") :
    joinSpace (w :: ws) ≠ "" := by
  cases ws with
  | nil => simpa [joinSpace] using hw
  | cons x xs =>
    simp only [joinSpace]
    intro hc
    have h2 := congrArg String.length hc
    rw [String.length_append, String.length_append] at h2
    have hsp : (" " : String).length = 1 := rfl
    have hem : ("" : String).length = 0 := rfl
    omega

/-- Claim C6 as amended: `extract_parameters` for the search tool returns
the empty string exactly on queries all of whose tokens are stop words
(such as `"what is the"`); whenever at least one non-stop-word token
remains after filtering, the returned parameter string is non-empty. -/
theorem c6_amended_nonempty_with_content_token (query : String)
    (h : (splitWs (strLower query)).filter (fun w => !(searchStopWords.contains w)) ≠ []) :
    extractParametersSearch query ≠ "" := by
  unfold extractParametersSearch
  rcases hl : (splitWs (strLower query)).filter (fun w => !(searchStopWords.contains w))
    with _ | ⟨w, t⟩
  · exact absurd hl h
  · have hw : w ∈ splitWs (strLower query) := by
      have hmem : w ∈ (splitWs (strLower query)).filter
          (fun w => !(searchStopWords.contains w)) := by
        rw [hl]; exact List.mem_cons_self w t
      exact List.mem_of_mem_filter hmem
    have hwne := splitWs_token_ne_empty _ _ hw
    show joinSpace (List.take 3 (w :: t)) ≠ ""
    rw [show (3 : Nat) = 2 + 1 from rfl, List.take_succ_cons]
    exact joinSpace_cons_ne_empty w (t.take 2) hwne

/-- Claim C6 witness: `"quantum computing basics"` keeps non-stop-word
tokens and yields a non-empty search parameter. -/
theorem c6_amended_witness :
    ((splitWs (strLower "quantum computing basics")).filter
      (fun w => !(searchStopWords.contains w)) ≠ []) ∧
    extractParametersSearch "quantum computing basics" ≠ "" :=
  ⟨by decide, c6_amended_nonempty_with_content_token "quantum computing basics" (by decide)⟩

/-- For the C7 query/response pair the rule-based scorer answers
`correct` regardless of the reasoning trace: the issue list is empty on
this path, so the negative-majority branch is unreachable. -/
theorem c7_ai_correct (steps : List Step) :
    (aiPoweredValidation "calculate 2+2" "Calculation: 2+2 = 5" steps).ai_decision =
        "correct" ∧
    (aiPoweredValidation "calculate 2+2" "Calculation: 2+2 = 5" steps).validation_successful =
        true := by
  cases h : toolMentioned steps <;>
    · unfold aiPoweredValidation
      simp only [h]
      exact ⟨rfl, rfl⟩

/-- For the C7 analysis (failed arithmetic re-check, numeric answer
present) the final decision is forced: `incorrect` with confidence
`max (min (30 + 5) 95 - 30) 20 = 20`, for every reasoning validation and
every scorer verdict of `correct`. -/
theorem c7_decision (rv : ReasoningValidation) (ai : AIValidation)
    (h1 : ai.ai_decision = "correct") (h2 : ai.validation_successful = true) :
    makeValidationDecision (analyzeAnswerContent "calculate 2+2" "Calculation: 2+2 = 5")
        rv ai =
      .ok { is_correct := false, confidence := 20,
            reasoning := "❌ ANSWER FLAGGED: ❌ Mathematical error: Expected 4, got 5",
            suggestions := ["❌ Mathematical error: Expected 4, got 5"] } := by
  unfold makeValidationDecision
  simp only [h1, h2]
  rfl

/-- Claim C7: for query `"calculate 2+2"` with response
`"Calculation: 2+2 = 5"`, the mathematical re-check yields
`is_correct = false` with `expected_result = 4` and `provided_result = 5`,
and — for every reasoning trace and history — the final validation
decision is `incorrect` with confidence 20 (within the claimed cap of 30). -/
theorem c7_wrong_arithmetic_forced_incorrect (now : String) (steps : List Step)
    (hist : List ValidationReport) :
    validateMathematicalAnswer "calculate 2+2" "Calculation: 2+2 = 5" =
      { is_correct := false, expected_result := some (.int 4),
        provided_result := some (.int 5), expression := some "2+2" } ∧
    decisionOf (validateResponse now "calculate 2+2" "Calculation: 2+2 = 5" steps hist) =
      some (false, 20) ∧ (20 : Int) ≤ 30 := by
  refine ⟨by decide, ?_, by decide⟩
  have hai := c7_ai_correct steps
  have hd := c7_decision (validateReasoningChain steps "calculate 2+2")
    (aiPoweredValidation "calculate 2+2" "Calculation: 2+2 = 5" steps) hai.1 hai.2
  unfold validateResponse
  simp only [hd]
  rfl

/-- Claim C8: the tool router is a strictly ordered first-match keyword
cascade over the lower-cased query, defaulting to search.  The four quoted
examples route as claimed, and arithmetic keywords take precedence over
every later category — in particular a validated query matching both the
arithmetic and the informational keyword sets yields `calculator`. -/
theorem c8_router_first_match_cascade :
    selectTool "Calculate 12 + 7" = "calculator" ∧
    selectTool "Weather in Tokyo?" = "weather" ∧
    selectTool "Latest news about AI" = "news" ∧
    selectTool "What is quantum computing?" = "search" ∧
    (∀ q, isMeaninglessQuery q = false → anyKw calcKeywords (strLower q) = true →
      selectTool q = "calculator") ∧
    (∀ q, isMeaninglessQuery q = false → anyKw calcKeywords (strLower q) = false →
      anyKw weatherKeywords (strLower q) = true → selectTool q = "weather") ∧
    (∀ q, isMeaninglessQuery q = false → anyKw calcKeywords (strLower q) = false →
      anyKw weatherKeywords (strLower q) = false → anyKw newsKeywords (strLower q) = true →
      selectTool q = "news") ∧
    (∀ q, isMeaninglessQuery q = false → anyKw calcKeywords (strLower q) = false →
      anyKw weatherKeywords (strLower q) = false → anyKw newsKeywords (strLower q) = false →
      selectTool q = "search") := by
  refine ⟨by decide, by decide, by decide, by decide, ?_, ?_, ?_, ?_⟩
  · intro q h1 h2
    unfold selectTool thinkResult
    simp [h1, h2]
  · intro q h1 h2 h3
    unfold selectTool thinkResult
    simp [h1, h2, h3]
  · intro q h1 h2 h3 h4
    unfold selectTool thinkResult
    simp [h1, h2, h3, h4]
  · intro q h1 h2 h3 h4
    unfold selectTool thinkResult
    simp only [h1, h2, h3, h4]
    cases h5 : anyKw infoKeywords (strLower q) <;> simp

/-- Claim C8 witness: `"calculate 2+2 what is that"` matches both the
arithmetic and the informational keyword sets and routes to the
calculator, exercising the precedence conjunct. -/
theorem c8_router_witness :
    isMeaninglessQuery "calculate 2+2 what is that" = false ∧
    anyKw calcKeywords (strLower "calculate 2+2 what is that") = true ∧
    anyKw infoKeywords (strLower "calculate 2+2 what is that") = true ∧
    selectTool "calculate 2+2 what is that" = "calculator" :=
  ⟨by decide, by decide, by decide,
   c8_router_first_match_cascade.2.2.2.2.1 "calculate 2+2 what is that" (by decide)
     (by decide)⟩

/-- Every successful decision of `_make_validation_decision` carries a
confidence in `[20, 95]`: the base is 85 (90 for verified arithmetic, 30
for failed arithmetic), the scorer nudge is `min (+5) 95` or
`max (-15) 40`, and a major issue applies `max (- 30) 20`. -/
theorem makeValidationDecision_confidence_bounds (a : AnswerAnalysis)
    (rv : ReasoningValidation) (ai : AIValidation) (d : Decision)
    (h : makeValidationDecision a rv ai = .ok d) :
    20 ≤ d.confidence ∧ d.confidence ≤ 95 := by
  unfold makeValidationDecision at h
  rcases hm : a.math_validation with _ | mv <;> simp only [hm] at h <;>
    repeat' split at h
  all_goals first
    | exact Except.noConfusion h
    | (injection h with h2
       subst h2
       refine ⟨?_, ?_⟩ <;>
         (simp only [min_def, max_def]
          omega))

/-- Claim C9: every `ValidationReport` returned by `validate_response` has
`confidence_level` in the interval `[20, 95]` — on the no-major-issue path
(default 85 plus nudges, clamped) and on every other successful path
(failed arithmetic, missing required content, scorer disagreement).  Calls
that raise (claim C1) return no report and are outside the quantifier. -/
theorem c9_confidence_in_range (now query response : String) (steps : List Step)
    (hist : List ValidationReport) (r : ValidationReport)
    (h : List ValidationReport)
    (heq : validateResponse now query response steps hist = .ok (r, h)) :
    20 ≤ r.confidence_level ∧ r.confidence_level ≤ 95 := by
  unfold validateResponse at heq
  cases hd : makeValidationDecision (analyzeAnswerContent query response)
      (validateReasoningChain steps query) (aiPoweredValidation query response steps) with
  | error e =>
    simp only [hd] at heq
    exact Except.noConfusion heq
  | ok d =>
    simp only [hd] at heq
    injection heq with h2
    injection h2 with h3 h4
    subst h3
    exact makeValidationDecision_confidence_bounds _ _ _ _ hd

/-- Claim C9 witness: the concrete call on `("hello", "world!")` returns
the sample report, whose confidence 70 lies in `[20, 95]`. -/
theorem c9_confidence_witness :
    20 ≤ c9SampleReport.confidence_level ∧ c9SampleReport.confidence_level ≤ 95 :=
  c9_confidence_in_range "" "hello" "world!" [] [] c9SampleReport [c9SampleReport]
    (by rfl)

/-- Claim C10: every report constructed by `validate_response` has
`validation_status = "CORRECT"` exactly when `validation_decision` is true
(and `"INCORRECT"` exactly when it is false, the only other value), and
the call appends exactly that one report to the end of the validation
history, leaving all earlier entries unchanged. -/
theorem c10_status_mirrors_decision_and_append (now query response : String)
    (steps : List Step) (hist : List ValidationReport) (r : ValidationReport)
    (h : List ValidationReport)
    (heq : validateResponse now query response steps hist = .ok (r, h)) :
    (r.validation_status = "CORRECT" ↔ r.validation_decision = true) ∧
    (r.validation_status = "INCORRECT" ↔ r.validation_decision = false) ∧
    h = hist ++ [r] := by
  unfold validateResponse at heq
  cases hd : makeValidationDecision (analyzeAnswerContent query response)
      (validateReasoningChain steps query) (aiPoweredValidation query response steps) with
  | error e =>
    simp only [hd] at heq
    exact Except.noConfusion heq
  | ok d =>
    simp only [hd] at heq
    injection heq with h2
    injection h2 with h3 h4
    subst h3
    subst h4
    refine ⟨?_, ?_, rfl⟩ <;> cases hdc : d.is_correct <;> simp [hdc]

/-- Claim C10 witness: the concrete call on `("good day", "sunshine")`
with an empty history returns the sample report with status `"CORRECT"`,
decision `true`, and history `[c10SampleReport]`. -/
theorem c10_witness :
    (c10SampleReport.validation_status = "CORRECT" ↔
      c10SampleReport.validation_decision = true) ∧
    (c10SampleReport.validation_status = "INCORRECT" ↔
      c10SampleReport.validation_decision = false) ∧
    [c10SampleReport] = ([] : List ValidationReport) ++ [c10SampleReport] :=
  c10_status_mirrors_decision_and_append "" "good day" "sunshine" [] []
    c10SampleReport [c10SampleReport] (by rfl)
